import Mathlib

/-!
Shallow embedding of the telegram-speaker playback core
(src/modules/models.py, src/modules/utils.py, src/modules/services.py)
together with theorems settling the specification's claims about it.

Python exceptions are modelled with Except; the outcomes of external calls
(pychromecast, the OS process utilities, the HTTP listener, the file system,
the remote player's status object) are supplied through explicit environment
records, so every definition is an executable function of its environment.
-/

/-- A Python-level exception value, identified by its kind. -/
inductive PyExc where
  | calledProcessError
  | fileNotFoundError
  | oserror
  | generic (msg : String)
  deriving DecidableEq, Repr

/-- models.DeviceType: type of playback device. -/
inductive DeviceType where
  | GOOGLE_CAST
  | MACOS_SAY
  deriving DecidableEq, Repr

/-- The .value string of the Python enum member. -/
def DeviceType.value : DeviceType → String
  | .GOOGLE_CAST => "googlecast"
  | .MACOS_SAY => "macos_say"

/-- Python's DeviceType(s) enum lookup by value; a ValueError becomes none. -/
def DeviceType.ofValue (s : String) : Option DeviceType :=
  if s = "googlecast" then some .GOOGLE_CAST
  else if s = "macos_say" then some .MACOS_SAY
  else none

/-- models.Device: a playback device. -/
structure Device where
  id : String
  name : String
  address : Option String
  device_type : DeviceType
  deriving DecidableEq, Repr

/-- The flat record produced by models.Device.to_dict. -/
structure DeviceDict where
  id : String
  name : String
  address : Option String
  device_type : String
  deriving DecidableEq, Repr

/-- models.Device.to_dict. -/
def Device.to_dict (d : Device) : DeviceDict :=
  { id := d.id, name := d.name, address := d.address,
    device_type := d.device_type.value }

/-- models.Device.from_dict; DeviceType(value) may raise ValueError, hence
the Option result. -/
def Device.from_dict (data : DeviceDict) : Option Device :=
  (DeviceType.ofValue data.device_type).map fun dt =>
    { id := data.id, name := data.name, address := data.address,
      device_type := dt }

/-- A discovered chromecast as consumed by utils.discover_googlecast_devices:
its uuid and the cast_info fields the code reads. -/
structure CCInfo where
  uuid : String
  friendly_name : String
  host : String
  deriving DecidableEq, Repr

/-- Environment of utils.discover_googlecast_devices: the outcome of
pychromecast.get_chromecasts for a given timeout. -/
structure DiscoverEnv where
  get_chromecasts : Nat → Except PyExc (List CCInfo)

/-- utils.discover_googlecast_devices: one Device per chromecast found; the
surrounding try/except Exception catches any scan failure and the function
returns the devices accumulated so far, which is the empty list when
get_chromecasts itself raised. -/
def discover_googlecast_devices (env : DiscoverEnv) (timeout : Nat) :
    Except PyExc (List Device) :=
  match env.get_chromecasts timeout with
  | .error _ => .ok []
  | .ok ccs =>
      .ok (ccs.map fun cc =>
        { id := cc.uuid, name := cc.friendly_name, address := some cc.host,
          device_type := DeviceType.GOOGLE_CAST })

/-- The outcome of subprocess.run(["afplay", path], check=True). -/
inductive RunOutcome where
  | ok
  | nonzeroExit
  | toolMissing
  deriving DecidableEq, Repr

/-- subprocess.run with check=True: CalledProcessError on a non-zero exit
status, FileNotFoundError when the executable is absent. -/
def subprocessRun (o : RunOutcome) : Except PyExc Unit :=
  match o with
  | .ok => .ok ()
  | .nonzeroExit => .error .calledProcessError
  | .toolMissing => .error .fileNotFoundError

/-- services.play_on_macos_say: the except clause catches only
subprocess.CalledProcessError; every other exception propagates. -/
def play_on_macos_say (o : RunOutcome) : Except PyExc Bool :=
  match subprocessRun o with
  | .ok _ => .ok true
  | .error .calledProcessError => .ok false
  | .error e => .error e

/-- A pychromecast Chromecast handle; the behaviour of its blocking calls is
part of the value so the environment can choose it. -/
structure CastHandle where
  uuid : String
  waitRaises : Bool
  disconnectRaises : Bool
  socketConnected : Option Bool
  deriving DecidableEq, Repr

/-- The mutable state of services.CastConnection. -/
structure CastConnState where
  cast : Option CastHandle
  browserPresent : Bool
  connected : Bool
  device_id : Option String
  deriving DecidableEq, Repr

/-- The state built by CastConnection.__init__. -/
def CastConnState.init : CastConnState :=
  { cast := none, browserPresent := false, connected := false,
    device_id := none }

/-- services.CastConnection.disconnect. browser.stop_discovery is modelled as
non-raising; cast.disconnect may raise, in which case the exception
propagates and the assignments after that line never run, so the error case
carries the state as it stands at the raise point. -/
def CastConnection.disconnect (st : CastConnState) :
    Except (PyExc × CastConnState) CastConnState :=
  let st1 := { st with browserPresent := false }
  match st1.cast with
  | some h =>
      if h.disconnectRaises then .error (.generic "cast.disconnect", st1)
      else .ok { st1 with cast := none, connected := false, device_id := none }
  | none => .ok { st1 with connected := false, device_id := none }

/-- Environment of CastConnection.connect: the outcome of
pychromecast.get_chromecasts. -/
structure CastWorld where
  get_chromecasts : Except PyExc (List CastHandle)

/-- Result of one connect call: the Python result or a propagated exception
(paired with the state at the raise point), plus the number of
get_chromecasts discoveries the call performed. -/
structure ConnectOutcome where
  res : Except (PyExc × CastConnState) (CastConnState × Bool)
  discoveries : Nat

/-- The except-handler of connect: log, self.disconnect(), return False;
a raise inside that disconnect propagates out of connect. -/
def connectOnExc (st : CastConnState) :
    Except (PyExc × CastConnState) (CastConnState × Bool) :=
  match CastConnection.disconnect st with
  | .ok st1 => .ok (st1, false)
  | .error e => .error e

/-- The try block of services.CastConnection.connect (lines 46-78). -/
def connectBody (st : CastConnState) (w : CastWorld) (device : Device) :
    ConnectOutcome :=
  match w.get_chromecasts with
  | .error _ => { res := connectOnExc st, discoveries := 1 }
  | .ok chromecasts =>
    let st1 := { st with browserPresent := true }
    let st2 := { st1 with cast := none }
    match chromecasts.find? (fun cc => cc.uuid == device.id) with
    | none =>
        { res :=
            match CastConnection.disconnect st2 with
            | .ok st3 => .ok (st3, false)
            | .error (_, stE) => connectOnExc stE,
          discoveries := 1 }
    | some cc =>
      let st3 := { st2 with cast := some cc }
      if cc.waitRaises then
        { res := connectOnExc st3, discoveries := 1 }
      else
        let st4 := { st3 with device_id := some device.id, connected := true }
        let st5 :=
          if st4.browserPresent then { st4 with browserPresent := false }
          else st4
        { res := .ok (st5, true), discoveries := 1 }

/-- services.CastConnection.connect: device-type guard, disconnect-on-switch
guard (with Python truthiness of the stored id), then the try block. -/
def CastConnection.connect (st : CastConnState) (w : CastWorld)
    (device : Device) : ConnectOutcome :=
  if device.device_type ≠ DeviceType.GOOGLE_CAST then
    { res := .ok (st, false), discoveries := 0 }
  else
    match st.device_id with
    | some d =>
      if d ≠ "" ∧ d ≠ device.id then
        match CastConnection.disconnect st with
        | .error e => { res := .error e, discoveries := 0 }
        | .ok st0 => connectBody st0 w device
      else connectBody st w device
    | none => connectBody st w device

/-- services.CastConnection.is_connected: cached-flag check, then a live
probe of socket_client.is_connected whose exception is treated as false. -/
def CastConnection.is_connected (st : CastConnState) : Bool :=
  match st.cast with
  | none => false
  | some h =>
    if !st.connected then false
    else
      match h.socketConnected with
      | none => false
      | some b => b

/-- services.CastConnection.get_cast. -/
def CastConnection.get_cast (st : CastConnState) : Option CastHandle :=
  if CastConnection.is_connected st then st.cast else none

/-- One snapshot of mc.status; idle_reason and player_state may each be
Python None. The whole status object may also be None, see readStatus. -/
structure MediaStatus where
  player_state : Option String
  idle_reason : Option String
  deriving DecidableEq, Repr

/-- Environment of one services.play_on_googlecast call: file-system facts
about audio_path, the global cast_connection state, the outcomes of the
external calls, and the stream of mc.status snapshots indexed by how many
status reads the call has performed so far. -/
structure PlayEnv where
  path_exists : Bool
  file_size : Nat
  dirName : String
  initialWd : String
  connState : CastConnState
  castWorld : CastWorld
  bindRaises : Bool
  playMediaRaises : Bool
  blockActiveRaises : Bool
  status : Nat → Option MediaStatus

/-- Observable side-effect events of one play_on_googlecast call. -/
inductive Ev where
  | getCast
  | connectCall
  | serverStart
  | serverStop
  | playMedia
  deriving DecidableEq, Repr

/-- How many times event x occurs in the event list. -/
def countEv (l : List Ev) (x : Ev) : Nat :=
  (l.filter fun e => decide (e = x)).length

/-- The mutable state of a services.AudioServer object. -/
structure AudioServerSt where
  directory : String
  serverBound : Bool
  originalDir : Option String
  deriving DecidableEq, Repr

/-- services.AudioServer.start: record the working directory, chdir into the
serve root, then bind the listener (which may raise before the server is
bound). Returns the Python result, the working directory afterwards, and
the object state afterwards. -/
def AudioServer.start (directory : String) (bindRaises : Bool) (wd : String) :
    Except PyExc Unit × String × AudioServerSt :=
  let srv0 : AudioServerSt :=
    { directory := directory, serverBound := false, originalDir := some wd }
  if bindRaises then (.error .oserror, directory, srv0)
  else (.ok (), directory, { srv0 with serverBound := true })

/-- services.AudioServer.stop: shut the listener down if it was bound and
chdir back to the recorded original directory. Returns the working
directory afterwards and the object state afterwards. -/
def AudioServer.stop (srv : AudioServerSt) (wd : String) :
    String × AudioServerSt :=
  match srv.originalDir with
  | some d => (d, { srv with serverBound := false })
  | none => (wd, srv)

/-- State threaded through the try block of play_on_googlecast: the event
trace so far, the number of status reads so far, the process working
directory, and the local variable server (None until line 175 runs). -/
structure TrySt where
  events : List Ev
  reads : Nat
  wd : String
  server : Option AudioServerSt

/-- One status read: (mc.status.player_state if mc.status else None,
mc.status.idle_reason if mc.status else None). -/
def readStatus (env : PlayEnv) (k : Nat) : Option String × Option String :=
  match env.status k with
  | none => (none, none)
  | some st => (st.player_state, st.idle_reason)

/-- Python truthiness of an idle_reason value (None and "" are falsy). -/
def idleTruthy (i : Option String) : Bool :=
  decide (i ≠ none ∧ i ≠ some "")

/-- The test idle_reason and idle_reason not in ("FINISHED", "INTERRUPTED"):
an idle_reason signalling a genuine playback error. -/
def idleError (i : Option String) : Bool :=
  idleTruthy i && decide (i ≠ some "FINISHED") && decide (i ≠ some "INTERRUPTED")

/-- How the while loop of play_on_googlecast was left. -/
inductive LoopRes where
  | returnFalse
  | breakFin
  | breakShort
  | timedOut
  deriving DecidableEq, Repr

/-- The while loop of play_on_googlecast (source lines 230-252), with elapsed
wall time in milliseconds advancing by the 0.3-second sleep per iteration
and the 60-second budget and 5-second grace period in the same unit. The
fuel argument only bounds the recursion; starting from fuel 201 and elapsed
0 the fuel is never exhausted before the time budget is. Returns the loop
outcome and the updated status-read counter. -/
def pollLoopAux (env : PlayEnv) : Nat → Nat → Nat → Bool → LoopRes × Nat
  | 0, k, _, _ => (.timedOut, k)
  | fuel + 1, k, elapsed, played =>
    if elapsed < 60000 then
      let so := readStatus env k
      if so.1 = some "PLAYING" then
        pollLoopAux env fuel (k + 1) (elapsed + 300) true
      else if so.1 = some "IDLE" then
        if played = true ∨ so.2 = some "FINISHED" then (.breakFin, k + 1)
        else if idleError so.2 = true then (.returnFalse, k + 1)
        else if elapsed > 5000 then (.breakShort, k + 1)
        else pollLoopAux env fuel (k + 1) (elapsed + 300) played
      else pollLoopAux env fuel (k + 1) (elapsed + 300) played
    else (.timedOut, k)

/-- The poll phase of play_on_googlecast: run the loop; a returnFalse exit
yields False (line 247) and every other exit falls through to the final
return True (line 255). -/
def playPollPhase (env : PlayEnv) (s : TrySt) : Except PyExc Bool × TrySt :=
  match pollLoopAux env 201 s.reads 0 false with
  | (.returnFalse, k) => (.ok false, { s with reads := k })
  | (_, k) => (.ok true, { s with reads := k })

/-- Source lines 216-228: read the status once after the activation attempt
and classify it; IDLE/FINISHED succeeds, IDLE with an error idle-reason
fails, everything else falls to the poll loop. -/
def playClassify (env : PlayEnv) (s : TrySt) : Except PyExc Bool × TrySt :=
  let so := readStatus env s.reads
  let s1 : TrySt := { s with reads := s.reads + 1 }
  if so.1 = some "IDLE" then
    if so.2 = some "FINISHED" then (.ok true, s1)
    else if idleError so.2 = true then (.ok false, s1)
    else playPollPhase env s1
  else playPollPhase env s1

/-- Source lines 193-214: the early-finish check right after play_media, then
mc.block_until_active whose exception path re-checks for FINISHED, then the
classification read. -/
def playAfterSend (env : PlayEnv) (s : TrySt) : Except PyExc Bool × TrySt :=
  let so := readStatus env s.reads
  let s1 : TrySt := { s with reads := s.reads + 1 }
  if so.1 = some "IDLE" ∧ so.2 = some "FINISHED" then (.ok true, s1)
  else if env.blockActiveRaises then
    let so2 := readStatus env s1.reads
    let s2 : TrySt := { s1 with reads := s1.reads + 1 }
    if so2.1 = some "IDLE" ∧ so2.2 = some "FINISHED" then (.ok true, s2)
    else playClassify env s2
  else playClassify env s1

/-- Source lines 174-255 once a live cast handle is in hand: create the
AudioServer object, start it (recording the chdir and possibly raising at
bind), send play_media (possibly raising), then the status phases. The
used_cached flag only controls an extra settle sleep in the source, which
has no further observable effect here. -/
def playWithCast (env : PlayEnv) (_used_cached : Bool) (s : TrySt) :
    Except PyExc Bool × TrySt :=
  let r := AudioServer.start env.dirName env.bindRaises s.wd
  let s1 : TrySt :=
    { s with
      events := s.events ++ [Ev.serverStart],
      wd := (r.2).1,
      server := some (r.2).2 }
  match r.1 with
  | .error e => (.error e, s1)
  | .ok _ =>
    let s2 : TrySt := { s1 with events := s1.events ++ [Ev.playMedia] }
    if env.playMediaRaises then (.error (.generic "play_media"), s2)
    else playAfterSend env s2

/-- Source lines 164-172: no usable cached connection, so call connect and
fetch the handle again; connect's propagated exceptions flow into the
surrounding try of play_on_googlecast. -/
def playConnectPath (device : Device) (env : PlayEnv) (s : TrySt) :
    Except PyExc Bool × TrySt :=
  let co := CastConnection.connect env.connState env.castWorld device
  let s1 : TrySt := { s with events := s.events ++ [Ev.connectCall] }
  match co.res with
  | .error e => (.error e.1, s1)
  | .ok (st1, ok) =>
    if ok = false then (.ok false, s1)
    else
      let s2 : TrySt := { s1 with events := s1.events ++ [Ev.getCast] }
      match CastConnection.get_cast st1 with
      | none => (.ok false, s2)
      | some _ => playWithCast env false s2

/-- The try block of services.play_on_googlecast (lines 148-255): the file
precondition checks, then cached-handle reuse or a fresh connect, then the
staged playback. -/
def play_on_googlecast_try (device : Device) (env : PlayEnv) :
    Except PyExc Bool × TrySt :=
  let s0 : TrySt :=
    { events := [], reads := 0, wd := env.initialWd, server := none }
  if env.path_exists = false then (.ok false, s0)
  else if env.file_size < 100 then (.ok false, s0)
  else
    let s1 : TrySt := { s0 with events := [Ev.getCast] }
    match CastConnection.get_cast env.connState with
    | some _ =>
      if env.connState.device_id = some device.id then playWithCast env true s1
      else playConnectPath device env s1
    | none => playConnectPath device env s1

/-- The observable outcome of one play_on_googlecast call. -/
structure PlayOutcome where
  result : Bool
  events : List Ev
  reads : Nat
  finalWd : String
  deriving Repr

/-- The except handler of play_on_googlecast: any exception becomes False. -/
def playResultOf : Except PyExc Bool → Bool
  | .ok b => b
  | .error _ => false

/-- The finally block of play_on_googlecast: if the server variable was set,
stop it (its own exceptions are suppressed by the inner try/except). -/
def playFinally (r : Except PyExc Bool × TrySt) : PlayOutcome :=
  match r.2.server with
  | some srv =>
    { result := playResultOf r.1,
      events := r.2.events ++ [Ev.serverStop],
      reads := r.2.reads,
      finalWd := (AudioServer.stop srv r.2.wd).1 }
  | none =>
    { result := playResultOf r.1, events := r.2.events,
      reads := r.2.reads, finalWd := r.2.wd }

/-- services.play_on_googlecast: the try body, then except-to-False, then the
finally block. -/
def play_on_googlecast (device : Device) (env : PlayEnv) : PlayOutcome :=
  playFinally (play_on_googlecast_try device env)

/-! Concrete inputs used by witnesses and counterexamples. -/

/-- A healthy cast handle for device id u1. -/
def hC2 : CastHandle :=
  { uuid := "u1", waitRaises := false, disconnectRaises := false,
    socketConnected := some true }

/-- A world whose discovery finds exactly the u1 handle. -/
def wC2 : CastWorld := { get_chromecasts := .ok [hC2] }

/-- The u1 cast device. -/
def devC2 : Device :=
  { id := "u1", name := "Speaker", address := some "10.0.0.5",
    device_type := DeviceType.GOOGLE_CAST }

/-- The connection state after a successful connect to devC2. -/
def stC2 : CastConnState :=
  { cast := some hC2, browserPresent := false, connected := true,
    device_id := some "u1" }

/-- A handle whose cast.disconnect() raises. -/
def hBroken : CastHandle :=
  { uuid := "u1", waitRaises := false, disconnectRaises := true,
    socketConnected := some true }

/-- A connected state holding the broken handle. -/
def stBroken : CastConnState :=
  { cast := some hBroken, browserPresent := false, connected := true,
    device_id := some "dev-1" }

/-- A healthy handle used by the C5 witness. -/
def hC5 : CastHandle :=
  { uuid := "u9", waitRaises := false, disconnectRaises := false,
    socketConnected := some true }

/-- A fully populated connected state used by the C5 witness. -/
def stC5 : CastConnState :=
  { cast := some hC5, browserPresent := true, connected := true,
    device_id := some "dev-9" }

/-! ## Claim C10 -/

/-- C10: for every Device value, from_dict inverts to_dict exactly,
including when the optional address is absent. -/
theorem device_from_dict_to_dict (d : Device) :
    Device.from_dict d.to_dict = some d := by
  cases d with
  | mk i n a t => cases t <;> rfl

/-! ## Claim C3 -/

/-- C3 counterexample: when the playback tool is absent, subprocess.run
raises FileNotFoundError, which play_on_macos_say does not catch, so the
exception escapes instead of the call returning false. -/
theorem play_on_macos_say_tool_missing_escapes :
    play_on_macos_say RunOutcome.toolMissing = .error PyExc.fileNotFoundError :=
  rfl

/-- C3 amended: play_on_macos_say returns false without raising exactly when
the failure is a non-zero exit status (CalledProcessError); when the tool is
absent the FileNotFoundError propagates to the caller. -/
theorem play_on_macos_say_catches_only_nonzero_exit :
    play_on_macos_say RunOutcome.ok = .ok true ∧
    play_on_macos_say RunOutcome.nonzeroExit = .ok false ∧
    play_on_macos_say RunOutcome.toolMissing = .error PyExc.fileNotFoundError :=
  ⟨rfl, rfl, rfl⟩

/-! ## Claim C4 -/

/-- C4: for every timeout and every scan outcome,
discover_googlecast_devices never raises, and when the underlying
get_chromecasts scan fails the result degrades to the empty device list. -/
theorem discover_never_throws (env : DiscoverEnv) (timeout : Nat) :
    (∃ l, discover_googlecast_devices env timeout = .ok l) ∧
    (∀ e, env.get_chromecasts timeout = .error e →
      discover_googlecast_devices env timeout = .ok []) := by
  unfold discover_googlecast_devices
  cases h : env.get_chromecasts timeout with
  | error e => exact ⟨⟨[], rfl⟩, fun _ _ => rfl⟩
  | ok ccs =>
      refine ⟨⟨_, rfl⟩, fun e he => ?_⟩
      cases he

/-- C4 witness: a failing scan concretely yields the empty list. -/
theorem discover_never_throws_witness :
    discover_googlecast_devices { get_chromecasts := fun _ => .error .oserror } 10 =
      .ok [] :=
  (discover_never_throws { get_chromecasts := fun _ => .error .oserror } 10).2
    .oserror rfl

/-! ## Claim C5 -/

/-- C5 counterexample: from a connected state whose handle's release raises,
disconnect propagates the exception and leaves the state at the raise point
still holding the handle, the connected flag and the device id — the
no-connection invariant does not hold. -/
theorem disconnect_release_raises_counterexample :
    CastConnection.disconnect stBroken =
      .error (.generic "cast.disconnect", stBroken) ∧
    stBroken.cast = some hBroken ∧
    stBroken.connected = true ∧
    stBroken.device_id = some "dev-1" :=
  ⟨rfl, rfl, rfl, rfl⟩

/-- C5 amended: disconnect is idempotent and resets the state to the
no-connection invariant from every starting state in which the handle's
release operation does not raise (no handle, or a handle whose disconnect
succeeds); when the release raises, the exception propagates and the state
is not reset. -/
theorem disconnect_resets_state (st : CastConnState)
    (h : st.cast = none ∨
      ∃ hdl, st.cast = some hdl ∧ hdl.disconnectRaises = false) :
    CastConnection.disconnect st = .ok CastConnState.init ∧
    CastConnection.disconnect CastConnState.init = .ok CastConnState.init := by
  obtain ⟨c, b, co, d⟩ := st
  refine ⟨?_, rfl⟩
  rcases h with h | ⟨hdl, hc, hr⟩
  · simp only at h
    subst h
    rfl
  · simp only at hc
    subst hc
    simp [CastConnection.disconnect, hr, CastConnState.init]

/-- C5 witness: a concrete fully populated healthy state is reset. -/
theorem disconnect_resets_state_witness :
    CastConnection.disconnect stC5 = .ok CastConnState.init ∧
    CastConnection.disconnect CastConnState.init = .ok CastConnState.init :=
  disconnect_resets_state stC5 (Or.inr ⟨hC5, rfl, rfl⟩)

/-! ## Claim C2 -/

/-- C2 counterexample: a first connect from the initial state succeeds and
reaches stC2; a second connect to the same device from that unchanged state
performs another get_chromecasts discovery (count 1, not 0), so it is not a
reuse of the established session. -/
theorem connect_second_call_rediscovers :
    CastConnection.connect CastConnState.init wC2 devC2 =
      { res := .ok (stC2, true), discoveries := 1 } ∧
    (CastConnection.connect stC2 wC2 devC2).discoveries = 1 :=
  ⟨rfl, rfl⟩

/-- C2 amended: connect has no same-device early return; a second connect(D)
after a successful first one runs a full new discovery (exactly one
get_chromecasts call) and re-establishes the session, returning true with
the same state when the device is found again. (The no-new-establishment
reuse lives in play_on_googlecast, which skips connect when the cached
handle is live and the device id matches.) -/
theorem connect_same_device_performs_discovery (st : CastConnState)
    (w : CastWorld) (device : Device) (l : List CastHandle) (h : CastHandle)
    (ht : device.device_type = DeviceType.GOOGLE_CAST)
    (hid : st.device_id = some device.id)
    (hw : w.get_chromecasts = .ok l)
    (hfind : l.find? (fun cc => cc.uuid == device.id) = some h)
    (hwait : h.waitRaises = false) :
    CastConnection.connect st w device =
      { res := .ok ({ cast := some h, browserPresent := false,
                      connected := true, device_id := some device.id }, true),
        discoveries := 1 } := by
  unfold CastConnection.connect connectBody
  simp [ht, hid, hw, hfind, hwait]

/-- C2 witness: the amended statement at the concrete connected state. -/
theorem connect_same_device_performs_discovery_witness :
    CastConnection.connect stC2 wC2 devC2 =
      { res := .ok ({ cast := some hC2, browserPresent := false,
                      connected := true, device_id := some "u1" }, true),
        discoveries := 1 } :=
  connect_same_device_performs_discovery stC2 wC2 devC2 [hC2] hC2
    rfl rfl rfl rfl rfl

/-! ## Invariant lemmas about the play phases -/

theorem countEv_append (l1 l2 : List Ev) (x : Ev) :
    countEv (l1 ++ l2) x = countEv l1 x + countEv l2 x := by
  simp [countEv, List.filter_append]

theorem playPollPhase_keeps (env : PlayEnv) (s : TrySt) :
    (playPollPhase env s).2.events = s.events ∧
    (playPollPhase env s).2.server = s.server ∧
    (playPollPhase env s).2.wd = s.wd := by
  unfold playPollPhase
  rcases hp : pollLoopAux env 201 s.reads 0 false with ⟨res, k⟩
  cases res <;> simp

theorem countEv_nil_ev (x : Ev) : countEv [] x = 0 := rfl

theorem countEv_get_stop : countEv [Ev.getCast] Ev.serverStop = 0 := rfl

theorem countEv_call_stop : countEv [Ev.connectCall] Ev.serverStop = 0 := rfl

theorem countEv_start_stop : countEv [Ev.serverStart] Ev.serverStop = 0 := rfl

theorem countEv_media_stop : countEv [Ev.playMedia] Ev.serverStop = 0 := rfl

theorem countEv_stop_stop : countEv [Ev.serverStop] Ev.serverStop = 1 := rfl

theorem countEv_start_media_stop :
    countEv [Ev.serverStart, Ev.playMedia] Ev.serverStop = 0 := rfl

theorem countEv_call_get_stop :
    countEv [Ev.connectCall, Ev.getCast] Ev.serverStop = 0 := rfl

theorem playClassify_keeps (env : PlayEnv) (s : TrySt) :
    (playClassify env s).2.events = s.events ∧
    (playClassify env s).2.server = s.server ∧
    (playClassify env s).2.wd = s.wd := by
  unfold playClassify
  dsimp only
  split
  · split
    · simp
    · split
      · simp
      · simpa using playPollPhase_keeps env _
  · simpa using playPollPhase_keeps env _

theorem playAfterSend_keeps (env : PlayEnv) (s : TrySt) :
    (playAfterSend env s).2.events = s.events ∧
    (playAfterSend env s).2.server = s.server ∧
    (playAfterSend env s).2.wd = s.wd := by
  unfold playAfterSend
  dsimp only
  split
  · simp
  · split
    · split
      · simp
      · simpa using playClassify_keeps env _
    · simpa using playClassify_keeps env _

theorem playPollPhase_events (env : PlayEnv) (s : TrySt) :
    (playPollPhase env s).2.events = s.events := (playPollPhase_keeps env s).1

theorem playPollPhase_server (env : PlayEnv) (s : TrySt) :
    (playPollPhase env s).2.server = s.server := (playPollPhase_keeps env s).2.1

theorem playPollPhase_wd (env : PlayEnv) (s : TrySt) :
    (playPollPhase env s).2.wd = s.wd := (playPollPhase_keeps env s).2.2

theorem playAfterSend_events (env : PlayEnv) (s : TrySt) :
    (playAfterSend env s).2.events = s.events := (playAfterSend_keeps env s).1

theorem playAfterSend_server (env : PlayEnv) (s : TrySt) :
    (playAfterSend env s).2.server = s.server := (playAfterSend_keeps env s).2.1

theorem playAfterSend_wd (env : PlayEnv) (s : TrySt) :
    (playAfterSend env s).2.wd = s.wd := (playAfterSend_keeps env s).2.2

theorem playWithCast_inv (env : PlayEnv) (uc : Bool) (s : TrySt) :
    (∀ srv, (playWithCast env uc s).2.server = some srv →
      srv.originalDir = some s.wd) ∧
    (playWithCast env uc s).2.server ≠ none ∧
    Ev.serverStart ∈ (playWithCast env uc s).2.events ∧
    countEv (playWithCast env uc s).2.events Ev.serverStop =
      countEv s.events Ev.serverStop := by
  unfold playWithCast AudioServer.start
  dsimp only
  cases hbr : env.bindRaises
  · cases hpm : env.playMediaRaises
    · simp [hbr, hpm, playAfterSend_events, playAfterSend_server,
        countEv_append, countEv_start_stop, countEv_media_stop,
        countEv_start_media_stop]
    · simp [hbr, hpm, countEv_append, countEv_start_stop, countEv_media_stop,
        countEv_start_media_stop]
  · simp [hbr, countEv_append, countEv_start_stop]

theorem playConnectPath_inv (device : Device) (env : PlayEnv) (s : TrySt)
    (hsv : s.server = none) :
    (∀ srv, (playConnectPath device env s).2.server = some srv →
      srv.originalDir = some s.wd) ∧
    ((playConnectPath device env s).2.server = none →
      (playConnectPath device env s).2.wd = s.wd) ∧
    countEv (playConnectPath device env s).2.events Ev.serverStop =
      countEv s.events Ev.serverStop ∧
    (Ev.serverStart ∈ (playConnectPath device env s).2.events ↔
      (Ev.serverStart ∈ s.events ∨
        (playConnectPath device env s).2.server ≠ none)) := by
  unfold playConnectPath
  dsimp only
  rcases hco : (CastConnection.connect env.connState env.castWorld device).res
    with e | ⟨st1, ok⟩
  · simp [hsv, countEv_append, countEv_call_stop]
  · cases ok
    · simp [hsv, countEv_append, countEv_call_stop]
    · rcases hgc : CastConnection.get_cast st1 with _ | h2
      · simp [hgc, hsv, countEv_append, countEv_call_stop, countEv_get_stop,
          countEv_call_get_stop]
      · simp only [hgc, Bool.true_eq_false, if_false]
        have hinv := playWithCast_inv env false
          { events := s.events ++ [Ev.connectCall] ++ [Ev.getCast],
            reads := s.reads, wd := s.wd, server := s.server }
        refine ⟨fun srv hs => hinv.1 srv hs, fun hn => absurd hn hinv.2.1,
          ?_, ?_⟩
        · rw [hinv.2.2.2]
          simp [countEv_append, countEv_call_stop, countEv_get_stop,
            countEv_call_get_stop]
        · exact ⟨fun _ => Or.inr hinv.2.1, fun _ => hinv.2.2.1⟩

theorem play_try_inv (device : Device) (env : PlayEnv) :
    (∀ srv, (play_on_googlecast_try device env).2.server = some srv →
      srv.originalDir = some env.initialWd) ∧
    ((play_on_googlecast_try device env).2.server = none →
      (play_on_googlecast_try device env).2.wd = env.initialWd) ∧
    countEv (play_on_googlecast_try device env).2.events Ev.serverStop = 0 ∧
    (Ev.serverStart ∈ (play_on_googlecast_try device env).2.events ↔
      (play_on_googlecast_try device env).2.server ≠ none) := by
  by_cases hpe : env.path_exists = false
  · have heq : play_on_googlecast_try device env =
        (.ok false,
          { events := [], reads := 0, wd := env.initialWd, server := none }) := by
      unfold play_on_googlecast_try
      simp [hpe]
    rw [heq]
    simp [countEv]
  · by_cases hfs : env.file_size < 100
    · have heq : play_on_googlecast_try device env =
          (.ok false,
            { events := [], reads := 0, wd := env.initialWd, server := none }) := by
        unfold play_on_googlecast_try
        simp [hpe, hfs]
      rw [heq]
      simp [countEv]
    · rcases hgc : CastConnection.get_cast env.connState with _ | h
      · have heq : play_on_googlecast_try device env =
            playConnectPath device env
              { events := [Ev.getCast], reads := 0, wd := env.initialWd,
                server := none } := by
          unfold play_on_googlecast_try
          simp [hpe, hfs, hgc]
        rw [heq]
        have hinv := playConnectPath_inv device env
          { events := [Ev.getCast], reads := 0, wd := env.initialWd,
            server := none } rfl
        refine ⟨hinv.1, hinv.2.1, ?_, ?_⟩
        · rw [hinv.2.2.1]
          rfl
        · rw [hinv.2.2.2]
          simp
      · by_cases hdi : env.connState.device_id = some device.id
        · have heq : play_on_googlecast_try device env =
              playWithCast env true
                { events := [Ev.getCast], reads := 0, wd := env.initialWd,
                  server := none } := by
            unfold play_on_googlecast_try
            simp [hpe, hfs, hgc, hdi]
          rw [heq]
          have hinv := playWithCast_inv env true
            { events := [Ev.getCast], reads := 0, wd := env.initialWd,
              server := none }
          refine ⟨hinv.1, fun hn => absurd hn hinv.2.1, ?_, ?_⟩
          · rw [hinv.2.2.2]
            rfl
          · exact ⟨fun _ => hinv.2.1, fun _ => hinv.2.2.1⟩
        · have heq : play_on_googlecast_try device env =
              playConnectPath device env
                { events := [Ev.getCast], reads := 0, wd := env.initialWd,
                  server := none } := by
            unfold play_on_googlecast_try
            simp [hpe, hfs, hgc, hdi]
          rw [heq]
          have hinv := playConnectPath_inv device env
            { events := [Ev.getCast], reads := 0, wd := env.initialWd,
              server := none } rfl
          refine ⟨hinv.1, hinv.2.1, ?_, ?_⟩
          · rw [hinv.2.2.1]
            rfl
          · rw [hinv.2.2.2]
            simp

theorem play_result_eq (device : Device) (env : PlayEnv) :
    (play_on_googlecast device env).result =
      playResultOf (play_on_googlecast_try device env).1 := by
  unfold play_on_googlecast playFinally
  rcases hs : (play_on_googlecast_try device env).2.server with _ | srv <;>
    simp [hs]

theorem play_reads_eq (device : Device) (env : PlayEnv) :
    (play_on_googlecast device env).reads =
      (play_on_googlecast_try device env).2.reads := by
  unfold play_on_googlecast playFinally
  rcases hs : (play_on_googlecast_try device env).2.server with _ | srv <;>
    simp [hs]

/-- A healthy cast handle used by the playback scenarios. -/
def hPlay : CastHandle :=
  { uuid := "u1", waitRaises := false, disconnectRaises := false,
    socketConnected := some true }

/-- A live cached connection to device u1. -/
def connLive : CastConnState :=
  { cast := some hPlay, browserPresent := false, connected := true,
    device_id := some "u1" }

/-- The u1 cast device used by the playback scenarios. -/
def devP : Device :=
  { id := "u1", name := "Speaker", address := some "10.0.0.5",
    device_type := DeviceType.GOOGLE_CAST }

/-- C8 witness environment: the precondition fails (50-byte file). -/
def envC8 : PlayEnv :=
  { path_exists := true, file_size := 50, dirName := "/tmp/audio",
    initialWd := "/home/bot", connState := connLive,
    castWorld := { get_chromecasts := .ok [] },
    bindRaises := false, playMediaRaises := false, blockActiveRaises := false,
    status := fun _ => none }

/-! ## Claim C8 -/

/-- C8: on every outcome of play_on_googlecast the working directory is
restored to its value before the call, the server-stop event occurs exactly
once when the server was started and never otherwise, and when the
precondition check fails the call performs no effects at all (so no server
is ever bound and the working directory is never changed). -/
theorem play_server_cleanup (device : Device) (env : PlayEnv) :
    (play_on_googlecast device env).finalWd = env.initialWd ∧
    countEv (play_on_googlecast device env).events Ev.serverStop =
      (if Ev.serverStart ∈ (play_on_googlecast device env).events then 1
       else 0) ∧
    ((env.path_exists = false ∨ env.file_size < 100) →
      (play_on_googlecast device env).events = []) := by
  have hpre : (env.path_exists = false ∨ env.file_size < 100) →
      play_on_googlecast_try device env =
        (.ok false,
          { events := [], reads := 0, wd := env.initialWd,
            server := none }) := by
    intro hp
    unfold play_on_googlecast_try
    rcases hp with hp | hp
    · simp [hp]
    · by_cases hpe2 : env.path_exists = false
      · simp [hpe2]
      · simp [hpe2, hp]
  obtain ⟨h1, h2, h3, h4⟩ := play_try_inv device env
  refine ⟨?_, ?_, ?_⟩
  · unfold play_on_googlecast playFinally
    rcases hs : (play_on_googlecast_try device env).2.server with _ | srv
    · simp only [hs]
      exact h2 hs
    · simp only [hs]
      have ho := h1 srv hs
      unfold AudioServer.stop
      rw [ho]
  · unfold play_on_googlecast playFinally
    rcases hs : (play_on_googlecast_try device env).2.server with _ | srv
    · simp only [hs]
      have hnm : Ev.serverStart ∉ (play_on_googlecast_try device env).2.events := by
        rw [h4, hs]
        simp
      rw [h3, if_neg hnm]
    · simp only [hs]
      have hm : Ev.serverStart ∈ (play_on_googlecast_try device env).2.events := by
        rw [h4, hs]
        simp
      have hm2 : Ev.serverStart ∈
          (play_on_googlecast_try device env).2.events ++ [Ev.serverStop] := by
        simp [hm]
      rw [countEv_append, h3, countEv_stop_stop, if_pos hm2]
  · intro hp
    unfold play_on_googlecast playFinally
    rw [hpre hp]

/-- C8 witness: at the failing-precondition environment the statement's
conclusions hold concretely. -/
theorem play_server_cleanup_witness :
    (play_on_googlecast devP envC8).finalWd = envC8.initialWd ∧
    (play_on_googlecast devP envC8).events = [] :=
  ⟨(play_server_cleanup devP envC8).1,
   (play_server_cleanup devP envC8).2.2 (Or.inr (by decide))⟩

/-! ## Claim C9 -/

/-- C9: whenever the audio file does not exist or is smaller than the
100-byte threshold, play_on_googlecast returns false having performed no
observable effect at all: no get_cast consultation, no connect call, no
server start, and no status read. -/
theorem play_precondition_short_circuits (device : Device) (env : PlayEnv)
    (h : env.path_exists = false ∨ env.file_size < 100) :
    (play_on_googlecast device env).result = false ∧
    (play_on_googlecast device env).events = [] ∧
    (play_on_googlecast device env).reads = 0 := by
  have heq : play_on_googlecast_try device env =
      (.ok false,
        { events := [], reads := 0, wd := env.initialWd, server := none }) := by
    unfold play_on_googlecast_try
    rcases h with hp | hp
    · simp [hp]
    · by_cases hpe : env.path_exists = false
      · simp [hpe]
      · simp [hpe, hp]
  unfold play_on_googlecast playFinally
  rw [heq]
  exact ⟨rfl, rfl, rfl⟩

/-- C9 witness environment: the file exists but has only 50 bytes. -/
def envC9 : PlayEnv :=
  { path_exists := true, file_size := 50, dirName := "/tmp/audio",
    initialWd := "/home/bot", connState := connLive,
    castWorld := { get_chromecasts := .ok [hPlay] },
    bindRaises := false, playMediaRaises := false, blockActiveRaises := false,
    status := fun _ => none }

/-- C9 witness: the 50-byte file short-circuits with no effects. -/
theorem play_precondition_short_circuits_witness :
    (play_on_googlecast devP envC9).result = false ∧
    (play_on_googlecast devP envC9).events = [] ∧
    (play_on_googlecast devP envC9).reads = 0 :=
  play_precondition_short_circuits devP envC9 (Or.inr (by decide))

/-! ## Reaching the post-send phase -/

theorem playWithCast_eq_afterSend (env : PlayEnv) (uc : Bool) (s : TrySt)
    (hbr : env.bindRaises = false) (hpm : env.playMediaRaises = false) :
    playWithCast env uc s = playAfterSend env
      { events := s.events ++ [Ev.serverStart] ++ [Ev.playMedia],
        reads := s.reads, wd := env.dirName,
        server := some { directory := env.dirName, serverBound := true,
                         originalDir := some s.wd } } := by
  unfold playWithCast AudioServer.start
  simp [hbr, hpm]

theorem playWithCast_bind_events (env : PlayEnv) (uc : Bool) (s : TrySt)
    (hbr : env.bindRaises = true) :
    (playWithCast env uc s).2.events = s.events ++ [Ev.serverStart] := by
  unfold playWithCast AudioServer.start
  simp [hbr]

theorem playConnectPath_reach (device : Device) (env : PlayEnv) (s : TrySt)
    (hpm : env.playMediaRaises = false)
    (hnm : Ev.playMedia ∉ s.events)
    (hmem : Ev.playMedia ∈ (playConnectPath device env s).2.events) :
    ∃ ev, playConnectPath device env s = playAfterSend env
      { events := ev, reads := s.reads, wd := env.dirName,
        server := some { directory := env.dirName, serverBound := true,
                         originalDir := some s.wd } } := by
  unfold playConnectPath at hmem ⊢
  dsimp only at hmem ⊢
  rcases hco : (CastConnection.connect env.connState env.castWorld device).res
    with e | ⟨st1, ok⟩
  · simp only [hco] at hmem
    simp [hnm] at hmem
  · cases ok
    · simp only [hco] at hmem
      simp [hnm] at hmem
    · simp only [hco, Bool.true_eq_false, if_false] at hmem ⊢
      rcases hgc : CastConnection.get_cast st1 with _ | h2
      · simp only [hgc] at hmem
        simp [hnm] at hmem
      · simp only [hgc] at hmem ⊢
        cases hbr : env.bindRaises
        · rw [playWithCast_eq_afterSend env false _ hbr hpm]
          exact ⟨_, rfl⟩
        · rw [playWithCast_bind_events env false _ hbr] at hmem
          simp [hnm] at hmem

theorem play_try_reach (device : Device) (env : PlayEnv)
    (hpm : env.playMediaRaises = false)
    (hmem : Ev.playMedia ∈ (play_on_googlecast_try device env).2.events) :
    ∃ ev, play_on_googlecast_try device env = playAfterSend env
      { events := ev, reads := 0, wd := env.dirName,
        server := some { directory := env.dirName, serverBound := true,
                         originalDir := some env.initialWd } } := by
  by_cases hpe : env.path_exists = false
  · have heq : play_on_googlecast_try device env =
        (.ok false,
          { events := [], reads := 0, wd := env.initialWd, server := none }) := by
      unfold play_on_googlecast_try
      simp [hpe]
    rw [heq] at hmem
    simp at hmem
  · by_cases hfs : env.file_size < 100
    · have heq : play_on_googlecast_try device env =
          (.ok false,
            { events := [], reads := 0, wd := env.initialWd, server := none }) := by
        unfold play_on_googlecast_try
        simp [hpe, hfs]
      rw [heq] at hmem
      simp at hmem
    · rcases hgc : CastConnection.get_cast env.connState with _ | h
      · have heq : play_on_googlecast_try device env =
            playConnectPath device env
              { events := [Ev.getCast], reads := 0, wd := env.initialWd,
                server := none } := by
          unfold play_on_googlecast_try
          simp [hpe, hfs, hgc]
        rw [heq] at hmem ⊢
        exact playConnectPath_reach device env _ hpm (by simp) hmem
      · by_cases hdi : env.connState.device_id = some device.id
        · have heq : play_on_googlecast_try device env =
              playWithCast env true
                { events := [Ev.getCast], reads := 0, wd := env.initialWd,
                  server := none } := by
            unfold play_on_googlecast_try
            simp [hpe, hfs, hgc, hdi]
          rw [heq] at hmem ⊢
          cases hbr : env.bindRaises
          · rw [playWithCast_eq_afterSend env true _ hbr hpm]
            exact ⟨_, rfl⟩
          · rw [playWithCast_bind_events env true _ hbr] at hmem
            simp at hmem
        · have heq : play_on_googlecast_try device env =
              playConnectPath device env
                { events := [Ev.getCast], reads := 0, wd := env.initialWd,
                  server := none } := by
            unfold play_on_googlecast_try
            simp [hpe, hfs, hgc, hdi]
          rw [heq] at hmem ⊢
          exact playConnectPath_reach device env _ hpm (by simp) hmem

theorem playMedia_mem_try (device : Device) (env : PlayEnv)
    (h : Ev.playMedia ∈ (play_on_googlecast device env).events) :
    Ev.playMedia ∈ (play_on_googlecast_try device env).2.events := by
  unfold play_on_googlecast playFinally at h
  rcases hs : (play_on_googlecast_try device env).2.server with _ | srv
  · simp only [hs] at h
    exact h
  · simp only [hs] at h
    simpa using h

theorem playAfterSend_first_finished (env : PlayEnv) (s : TrySt)
    (h0 : env.status s.reads =
      some { player_state := some "IDLE", idle_reason := some "FINISHED" }) :
    playAfterSend env s = (.ok true, { s with reads := s.reads + 1 }) := by
  unfold playAfterSend readStatus
  rw [h0]
  simp

/-! ## Claim C7 -/

/-- C7: in every execution that issues the play command, if the first status
observation afterwards is player_state IDLE with idle_reason FINISHED, then
play_on_googlecast returns true having performed exactly that one status
read — the multi-iteration polling loop is never entered. -/
theorem play_first_observation_finished (device : Device) (env : PlayEnv)
    (hmem : Ev.playMedia ∈ (play_on_googlecast device env).events)
    (hpm : env.playMediaRaises = false)
    (h0 : env.status 0 =
      some { player_state := some "IDLE", idle_reason := some "FINISHED" }) :
    (play_on_googlecast device env).result = true ∧
    (play_on_googlecast device env).reads = 1 := by
  obtain ⟨ev, heq⟩ :=
    play_try_reach device env hpm (playMedia_mem_try device env hmem)
  have hfin := playAfterSend_first_finished env
    { events := ev, reads := 0, wd := env.dirName,
      server := some { directory := env.dirName, serverBound := true,
                       originalDir := some env.initialWd } } h0
  rw [play_result_eq, play_reads_eq, heq, hfin]
  exact ⟨rfl, rfl⟩

/-- C7 witness environment: cached live connection, first observation is
IDLE/FINISHED. -/
def envC7 : PlayEnv :=
  { path_exists := true, file_size := 5000, dirName := "/tmp/audio",
    initialWd := "/home/bot", connState := connLive,
    castWorld := { get_chromecasts := .ok [hPlay] },
    bindRaises := false, playMediaRaises := false, blockActiveRaises := false,
    status := fun _ =>
      some { player_state := some "IDLE", idle_reason := some "FINISHED" } }

/-- C7 witness: the concrete IDLE/FINISHED-first environment succeeds after
one read. -/
theorem play_first_observation_finished_witness :
    (play_on_googlecast devP envC7).result = true ∧
    (play_on_googlecast devP envC7).reads = 1 :=
  play_first_observation_finished devP envC7 (by decide) rfl rfl

/-! ## Claim C1 -/

theorem pollLoopAux_no_idle (env : PlayEnv)
    (hni : ∀ j, (readStatus env j).1 ≠ some "IDLE") :
    ∀ fuel k elapsed played,
      (pollLoopAux env fuel k elapsed played).1 ≠ LoopRes.returnFalse := by
  intro fuel
  induction fuel with
  | zero =>
      intro k elapsed played
      simp [pollLoopAux]
  | succ n ih =>
      intro k elapsed played
      unfold pollLoopAux
      dsimp only
      by_cases he : elapsed < 60000
      · rw [if_pos he]
        by_cases hp : (readStatus env k).1 = some "PLAYING"
        · rw [if_pos hp]
          exact ih _ _ _
        · rw [if_neg hp, if_neg (hni k)]
          exact ih _ _ _
      · rw [if_neg he]
        simp

theorem playPollPhase_no_idle (env : PlayEnv) (s : TrySt)
    (hni : ∀ j, (readStatus env j).1 ≠ some "IDLE") :
    (playPollPhase env s).1 = .ok true := by
  unfold playPollPhase
  rcases hp : pollLoopAux env 201 s.reads 0 false with ⟨res, k⟩
  have h := pollLoopAux_no_idle env hni 201 s.reads 0 false
  rw [hp] at h
  cases res
  · exact absurd rfl h
  · rfl
  · rfl
  · rfl

theorem playClassify_no_idle (env : PlayEnv) (s : TrySt)
    (hni : ∀ j, (readStatus env j).1 ≠ some "IDLE") :
    (playClassify env s).1 = .ok true := by
  unfold playClassify
  dsimp only
  rw [if_neg (hni s.reads)]
  exact playPollPhase_no_idle env _ hni

theorem playAfterSend_no_idle (env : PlayEnv) (s : TrySt)
    (hni : ∀ j, (readStatus env j).1 ≠ some "IDLE") :
    (playAfterSend env s).1 = .ok true := by
  unfold playAfterSend
  dsimp only
  rw [if_neg (fun hc => hni s.reads (And.left hc))]
  by_cases hba : env.blockActiveRaises = true
  · rw [if_pos hba, if_neg (fun hc => hni (s.reads + 1) (And.left hc))]
    exact playClassify_no_idle env _ hni
  · rw [if_neg hba]
    exact playClassify_no_idle env _ hni

/-- C1 counterexample environment: every observation is a non-terminal
BUFFERING state, so the loop consumes its whole 60-second budget. -/
def envC1 : PlayEnv :=
  { path_exists := true, file_size := 5000, dirName := "/tmp/audio",
    initialWd := "/home/bot", connState := connLive,
    castWorld := { get_chromecasts := .ok [hPlay] },
    bindRaises := false, playMediaRaises := false, blockActiveRaises := false,
    status := fun _ =>
      some { player_state := some "BUFFERING", idle_reason := none } }

set_option maxRecDepth 8000 in
/-- C1 counterexample: the polling loop runs to the end of its overall
timeout budget (202 status reads: one early-finish check, one
classification read, then 200 loop iterations) without ever reaching a
terminal condition, and the call returns true — not false. -/
theorem play_overall_timeout_counterexample :
    (play_on_googlecast devP envC1).result = true ∧
    (play_on_googlecast devP envC1).reads = 202 := ⟨rfl, rfl⟩

/-- C1 amended: when the polling loop runs to the end of its overall timeout
budget without ever reaching a terminal condition (here: no observation is
ever IDLE, so no finish, no error and no grace-period exit can fire), the
call returns true — the code falls through the loop to the final
return True, treating an exhausted poll budget as success. -/
theorem play_overall_timeout_returns_true (device : Device) (env : PlayEnv)
    (hmem : Ev.playMedia ∈ (play_on_googlecast device env).events)
    (hpm : env.playMediaRaises = false)
    (hni : ∀ j, (readStatus env j).1 ≠ some "IDLE") :
    (play_on_googlecast device env).result = true := by
  obtain ⟨ev, heq⟩ :=
    play_try_reach device env hpm (playMedia_mem_try device env hmem)
  rw [play_result_eq, heq, playAfterSend_no_idle env _ hni]
  rfl

set_option maxRecDepth 8000 in
/-- C1 amended witness: the all-BUFFERING environment returns true. -/
theorem play_overall_timeout_returns_true_witness :
    (play_on_googlecast devP envC1).result = true :=
  play_overall_timeout_returns_true devP envC1 (by decide) rfl
    (fun j hcon => absurd hcon
      (show ¬((some "BUFFERING" : Option String) = some "IDLE") by decide))

/-! ## Claim C6 -/

theorem playAfterSend_not_idle_first (env : PlayEnv) (s : TrySt)
    (h0 : (readStatus env s.reads).1 ≠ some "IDLE")
    (hba : env.blockActiveRaises = false) :
    playAfterSend env s = playClassify env { s with reads := s.reads + 1 } := by
  unfold playAfterSend
  dsimp only
  rw [if_neg (fun hc => h0 (And.left hc)), if_neg (by simp [hba])]

theorem playClassify_idle_error (env : PlayEnv) (s : TrySt) (r : String)
    (h : env.status s.reads =
      some { player_state := some "IDLE", idle_reason := some r })
    (hr : idleError (some r) = true) :
    playClassify env s = (.ok false, { s with reads := s.reads + 1 }) := by
  have hrf : r ≠ "FINISHED" := fun hcon =>
    absurd (hcon ▸ hr) (by decide)
  unfold playClassify readStatus
  rw [h]
  simp [hr, hrf]

/-- C6 counterexample environment: a PLAYING observation is recorded before
an IDLE observation with the error idle-reason ERROR arrives in the loop. -/
def envC6 : PlayEnv :=
  { path_exists := true, file_size := 5000, dirName := "/tmp/audio",
    initialWd := "/home/bot", connState := connLive,
    castWorld := { get_chromecasts := .ok [hPlay] },
    bindRaises := false, playMediaRaises := false, blockActiveRaises := false,
    status := fun k =>
      if k = 3 then
        some { player_state := some "IDLE", idle_reason := some "ERROR" }
      else some { player_state := some "PLAYING", idle_reason := none } }

/-- C6 counterexample: observation 3 is IDLE with the error idle-reason
ERROR (outside FINISHED/INTERRUPTED), yet the call returns true, because a
PLAYING observation had been recorded and the loop's success break takes
precedence over the error check — the call does not return false at that
observation. -/
theorem play_idle_error_after_playing_counterexample :
    (play_on_googlecast devP envC6).result = true ∧
    envC6.status 3 =
      some { player_state := some "IDLE", idle_reason := some "ERROR" } ∧
    idleError (some "ERROR") = true := ⟨rfl, rfl, rfl⟩

/-- C6 amended: an IDLE observation with a truthy idle-reason outside
FINISHED/INTERRUPTED causes an immediate false return only at the
post-activation classification read (the call then stops after exactly that
read) and at a polling-loop iteration where no PLAYING observation has been
recorded yet; the early-finish checks do not test it, and after a recorded
PLAYING observation the loop's success break takes precedence. -/
theorem play_idle_error_short_circuit (device : Device) (env : PlayEnv)
    (r : String)
    (hmem : Ev.playMedia ∈ (play_on_googlecast device env).events)
    (hpm : env.playMediaRaises = false)
    (hba : env.blockActiveRaises = false)
    (h0 : (readStatus env 0).1 ≠ some "IDLE")
    (h1 : env.status 1 =
      some { player_state := some "IDLE", idle_reason := some r })
    (hr : idleError (some r) = true) :
    ((play_on_googlecast device env).result = false ∧
     (play_on_googlecast device env).reads = 2) ∧
    (∀ fuel k elapsed, elapsed < 60000 →
      env.status k =
        some { player_state := some "IDLE", idle_reason := some r } →
      pollLoopAux env (fuel + 1) k elapsed false = (.returnFalse, k + 1)) := by
  have hrf : r ≠ "FINISHED" := fun hcon =>
    absurd (hcon ▸ hr) (by decide)
  constructor
  · obtain ⟨ev, heq⟩ :=
      play_try_reach device env hpm (playMedia_mem_try device env hmem)
    rw [play_result_eq, play_reads_eq, heq,
        playAfterSend_not_idle_first env _ h0 hba,
        playClassify_idle_error env _ r h1 hr]
    exact ⟨rfl, rfl⟩
  · intro fuel k elapsed he hk
    have hks : readStatus env k = (some "IDLE", some r) := by
      unfold readStatus
      rw [hk]
    unfold pollLoopAux
    dsimp only
    rw [if_pos he]
    simp [hks, hr, hrf]

/-- C6 witness environment: first observation PLAYING, the classification
read IDLE/ERROR. -/
def envC6w : PlayEnv :=
  { path_exists := true, file_size := 5000, dirName := "/tmp/audio",
    initialWd := "/home/bot", connState := connLive,
    castWorld := { get_chromecasts := .ok [hPlay] },
    bindRaises := false, playMediaRaises := false, blockActiveRaises := false,
    status := fun k =>
      if k = 0 then
        some { player_state := some "PLAYING", idle_reason := none }
      else
        some { player_state := some "IDLE", idle_reason := some "ERROR" } }

/-- C6 amended witness: the concrete IDLE/ERROR-at-classification
environment fails after exactly two reads, and the loop-level clause holds
there too. -/
theorem play_idle_error_short_circuit_witness :
    ((play_on_googlecast devP envC6w).result = false ∧
     (play_on_googlecast devP envC6w).reads = 2) ∧
    (∀ fuel k elapsed, elapsed < 60000 →
      envC6w.status k =
        some { player_state := some "IDLE", idle_reason := some "ERROR" } →
      pollLoopAux envC6w (fuel + 1) k elapsed false = (.returnFalse, k + 1)) :=
  play_idle_error_short_circuit devP envC6w "ERROR" (by decide) rfl rfl
    (fun hcon => absurd hcon
      (show ¬((some "PLAYING" : Option String) = some "IDLE") by decide))
    rfl (by decide)
